import Mathlib

/-!
Shallow embedding of `src/backend/server.js` (FacultyProfileapp): an Express +
Mongoose CRUD backend managing user accounts (register/login with bcrypt) and
faculty profiles (create/list/get/update/delete with a single photo upload via
multer).  The document store, the filesystem and bcrypt are modelled explicitly;
each HTTP route becomes a pure function from the request data and the server
state to a response and a new state.  JavaScript `undefined` is modelled as
`Option.none` throughout.
-/

namespace FacultyApp

/-- Model of a bcrypt hash: bcrypt with a per-call random salt is an injective
keyed one-way function of (salt, password); the irreversible digest is modelled
by keeping the password as the digest data, which validates exactly the
equation `compare p (hash salt p) = true`. -/
structure BcryptHash where
  salt : Nat
  digest : String
deriving DecidableEq, Repr

/-- `bcrypt.hash(password, 10)` with the random salt drawn for this call. -/
def bcryptHash (salt : Nat) (password : String) : BcryptHash :=
  ⟨salt, password⟩

/-- `bcrypt.compare(password, hash)`: recompute the digest under the hash's
salt and compare. -/
def bcryptCompare (password : String) (h : BcryptHash) : Bool :=
  bcryptHash h.salt password == h

/-- A stored user record (`userSchema`): username and the bcrypt hash stored
in the `password` field. -/
structure UserRec where
  username : String
  password : BcryptHash
deriving DecidableEq, Repr

/-- A faculty document (`facultySchema`).  All fields are optional strings in
the schema; a field that was never set is `none` (JS `undefined`). -/
structure FacultyDoc where
  name : Option String
  designation : Option String
  department : Option String
  photo : Option String
  publications : Option String
  researchProjects : Option String
  articlesAndJournals : Option String
  workshops : Option String
  coursesHandled : Option String
  awardsReceived : Option String
deriving DecidableEq, Repr

/-- The whole persistent state of the server: the two MongoDB collections and
the set of files present on disk (absolute paths). -/
structure DB where
  users : List UserRec
  faculty : List (String × FacultyDoc)
  fsFiles : List String
deriving DecidableEq, Repr

/-- JS truthiness of an optional string field: `undefined` and `""` are falsy. -/
def strTruthy : Option String → Bool
  | none => false
  | some s => s ≠ ""

/-- Mongoose casts a route `:id` to an ObjectId; a 24-character hex string or
any 12-character string casts, everything else throws a CastError. -/
def isValidObjectId (s : String) : Bool :=
  (s.length == 24 && s.toList.all (fun c =>
      c.isDigit || ('a' ≤ c && c ≤ 'f') || ('A' ≤ c && c ≤ 'F')))
  || s.length == 12

/-- `Model.findById(id)`: throws (`.error`) on a non-castable id, otherwise
returns the matching document if any. -/
def findById (db : DB) (id : String) : Except Unit (Option FacultyDoc) :=
  if isValidObjectId id then
    .ok ((db.faculty.find? (fun p => p.1 == id)).map (fun p => p.2))
  else
    .error ()

/-- `path.join(__dirname, rel)` for a server-relative path beginning with
`/`: the server directory prefixed to the relative path. -/
def diskPath (rel : String) : String :=
  "/srv/backend" ++ rel

/-- Suffix of the character list starting at its last `.`, or `none` if no
dot occurs. -/
def lastDotSuffix : List Char → Option (List Char)
  | [] => none
  | c :: cs =>
    match lastDotSuffix cs with
    | some s => some s
    | none => if c == '.' then some (c :: cs) else none

/-- `path.extname(p)` (Node): the extension of the last path segment, from
its last `.` to the end; empty if there is no dot or the only dot is the
first character of the segment. -/
def extname (p : String) : String :=
  let base := (p.splitOn "/").getLastD ""
  match lastDotSuffix base.toList with
  | none => ""
  | some s => if s.length == base.toList.length then "" else String.mk s

/-- The uploaded file as multer sees it: the client-supplied original name. -/
structure UploadedFile where
  originalname : String
deriving DecidableEq, Repr

/-- Multer `filename`: `Date.now() + path.extname(file.originalname)`. -/
def multerFilename (now : Nat) (f : UploadedFile) : String :=
  toString now ++ extname f.originalname

/-- Server-relative URL path under which an upload is stored and served. -/
def uploadRelPath (now : Nat) (f : UploadedFile) : String :=
  "/faculty_uploadss/" ++ multerFilename now f

/-- Filesystem insert (multer writing the uploaded file to `uploadDir`):
set-semantics, writing an existing path overwrites it. -/
def fsInsert (p : String) (fs : List String) : List String :=
  if fs.contains p then fs else p :: fs

/-- `fs.existsSync(p)` followed by `fs.unlinkSync(p)`: remove the path from
the filesystem if present. -/
def fsDeleteIfExists (p : String) (fs : List String) : List String :=
  if fs.contains p then fs.filter (fun q => !(q == p)) else fs

/-- Multer runs before the route handler: if the request carries a file it is
written to disk under the generated name. -/
def multerWrite (file : Option UploadedFile) (now : Nat) (db : DB) : DB :=
  match file with
  | some f => { db with fsFiles := fsInsert (diskPath (uploadRelPath now f)) db.fsFiles }
  | none => db

-- ------------------ User Auth ------------------

/-- Response of `/register` and `/login`: HTTP status, `message`, and (login
success only) the echoed `username`.  No token or session field exists on any
path. -/
structure AuthResp where
  status : Nat
  message : String
  username : Option String
deriving DecidableEq, Repr

/-- `POST /register`: look up the username; 400 Conflict if present, else
hash the password (with this call's random salt) and append a new user.  The
store lookup is `User.findOne({username})`, the first match in insertion
order. -/
def register (db : DB) (username password : String) (salt : Nat) :
    AuthResp × DB :=
  match db.users.find? (fun u => u.username == username) with
  | some _ => (⟨400, "Username already exists", none⟩, db)
  | none =>
    let user : UserRec := ⟨username, bcryptHash salt password⟩
    (⟨201, "User registered successfully", none⟩,
     { db with users := db.users ++ [user] })

/-- `POST /login`: look up the username; the same 400 response whether the
username is unknown or the hash does not verify; on success 200 with
`Welcome <username>` and the username echoed back. -/
def login (db : DB) (username password : String) : AuthResp :=
  match db.users.find? (fun u => u.username == username) with
  | none => ⟨400, "Invalid username or password", none⟩
  | some user =>
    if bcryptCompare password user.password then
      ⟨200, "Welcome " ++ user.username, some user.username⟩
    else
      ⟨400, "Invalid username or password", none⟩

-- ------------------ Faculty API ------------------

/-- The multipart form fields of a faculty create/update request; an omitted
field is `none` (`req.body.x === undefined`). -/
structure FacultyBody where
  name : Option String
  designation : Option String
  department : Option String
  publications : Option String
  researchProjects : Option String
  articlesAndJournals : Option String
  workshops : Option String
  coursesHandled : Option String
  awardsReceived : Option String
deriving DecidableEq, Repr

/-- The request body with every field absent. -/
def FacultyBody.empty : FacultyBody :=
  ⟨none, none, none, none, none, none, none, none, none⟩

/-- Response of `POST /api/faculty`. -/
structure CreateResp where
  status : Nat
  success : Bool
  message : String
deriving DecidableEq, Repr

/-- The document built by `POST /api/faculty` from the body fields, with
`photo` the upload's relative path or `""` when no file was supplied. -/
def createdDoc (body : FacultyBody) (file : Option UploadedFile)
    (now : Nat) : FacultyDoc :=
  { name := body.name
    designation := body.designation
    department := body.department
    photo := some (match file with
      | some f => uploadRelPath now f
      | none => "")
    publications := body.publications
    researchProjects := body.researchProjects
    articlesAndJournals := body.articlesAndJournals
    workshops := body.workshops
    coursesHandled := body.coursesHandled
    awardsReceived := body.awardsReceived }

/-- `POST /api/faculty`: multer stores the optional photo, then the new
document is appended to the collection (with a store-generated id, passed
here as `newId`). -/
def createFaculty (db : DB) (body : FacultyBody) (file : Option UploadedFile)
    (now : Nat) (newId : String) : CreateResp × DB :=
  let db0 := multerWrite file now db
  (⟨200, true, "Faculty saved successfully!"⟩,
   { db0 with faculty := db0.faculty ++ [(newId, createdDoc body file now)] })

/-- A faculty record as returned by `GET /api/faculty` under the projection
`"name designation department photo"`: exactly these four schema fields. -/
structure ListedFaculty where
  name : Option String
  designation : Option String
  department : Option String
  photo : Option String
deriving DecidableEq, Repr

/-- The projection applied by `Faculty.find({}, "name designation department
photo")`. -/
def projectListed (d : FacultyDoc) : ListedFaculty :=
  ⟨d.name, d.designation, d.department, d.photo⟩

/-- `GET /api/faculty`: all documents under the four-field projection. -/
def listFaculty (db : DB) : List ListedFaculty :=
  db.faculty.map (fun p => projectListed p.2)

/-- Response of `GET /api/faculty/:id`: the document on 200, otherwise an
error message. -/
structure GetResp where
  status : Nat
  message : Option String
  doc : Option FacultyDoc
deriving DecidableEq, Repr

/-- `GET /api/faculty/:id`: 500 if the id does not cast (findById throws),
404 if no document matches, else the full document. -/
def getFaculty (db : DB) (id : String) : GetResp :=
  match findById db id with
  | .error _ => ⟨500, some "Error fetching faculty", none⟩
  | .ok none => ⟨404, some "Faculty not found", none⟩
  | .ok (some d) => ⟨200, none, some d⟩

/-- Response of `PUT /api/faculty/:id`. -/
structure UpdateResp where
  status : Nat
  success : Bool
  message : String
  faculty : Option FacultyDoc
deriving DecidableEq, Repr

/-- The document written by `findByIdAndUpdate`: every text field is set from
the body (possibly to `undefined`); `photo` is set to the new upload path only
when a file was supplied, otherwise the key is absent from `updatedData` and
the stored value is kept. -/
def updatedDoc (old : FacultyDoc) (body : FacultyBody)
    (file : Option UploadedFile) (now : Nat) : FacultyDoc :=
  { name := body.name
    designation := body.designation
    department := body.department
    photo := match file with
      | some f => some (uploadRelPath now f)
      | none => old.photo
    publications := body.publications
    researchProjects := body.researchProjects
    articlesAndJournals := body.articlesAndJournals
    workshops := body.workshops
    coursesHandled := body.coursesHandled
    awardsReceived := body.awardsReceived }

/-- `PUT /api/faculty/:id`: multer stores the optional new photo; findById
throws on a bad id (500) or yields 404; otherwise, when a new file was
supplied and the record's `photo` is truthy, the old file is unlinked if it
exists on disk; then the document is replaced by `updatedDoc` and returned
(`new: true`). -/
def updateFaculty (db : DB) (id : String) (body : FacultyBody)
    (file : Option UploadedFile) (now : Nat) : UpdateResp × DB :=
  let db0 := multerWrite file now db
  match findById db0 id with
  | .error _ => (⟨500, false, "Error updating faculty", none⟩, db0)
  | .ok none => (⟨404, false, "Faculty not found", none⟩, db0)
  | .ok (some faculty) =>
    let db1 :=
      match file with
      | some _ =>
        if strTruthy faculty.photo then
          { db0 with
            fsFiles := fsDeleteIfExists (diskPath (faculty.photo.getD ""))
              db0.fsFiles }
        else db0
      | none => db0
    let newDoc := updatedDoc faculty body file now
    (⟨200, true, "Faculty updated successfully!", some newDoc⟩,
     { db1 with
       faculty := db1.faculty.map (fun p =>
         if p.1 == id then (p.1, newDoc) else p) })

/-- Response of `DELETE /api/faculty/:id`. -/
structure DeleteResp where
  status : Nat
  success : Bool
  message : String
deriving DecidableEq, Repr

/-- `DELETE /api/faculty/:id`: findByIdAndDelete throws on a bad id (500) or
yields 404; otherwise the record is removed and, if its `photo` was truthy,
the referenced file is unlinked if it exists on disk. -/
def deleteFaculty (db : DB) (id : String) : DeleteResp × DB :=
  match findById db id with
  | .error _ => (⟨500, false, "Error deleting faculty"⟩, db)
  | .ok none => (⟨404, false, "Faculty not found"⟩, db)
  | .ok (some deleted) =>
    let db1 := { db with faculty := db.faculty.filter (fun p => !(p.1 == id)) }
    let db2 :=
      if strTruthy deleted.photo then
        { db1 with
          fsFiles := fsDeleteIfExists (diskPath (deleted.photo.getD ""))
            db1.fsFiles }
      else db1
    (⟨200, true, "Faculty deleted successfully"⟩, db2)

-- ------------------ Helper lemmas ------------------

theorem findById_multerWrite (db : DB) (file : Option UploadedFile) (now : Nat)
    (id : String) : findById (multerWrite file now db) id = findById db id := by
  cases file <;> rfl

theorem findById_ok_some {db : DB} {id : String} {d : FacultyDoc}
    (h : findById db id = .ok (some d)) :
    isValidObjectId id = true ∧
      db.faculty.find? (fun p => p.1 == id) = some (id, d) := by
  unfold findById at h
  by_cases hv : isValidObjectId id = true
  · refine ⟨hv, ?_⟩
    simp only [hv, if_pos] at h
    rcases hf : db.faculty.find? (fun p => p.1 == id) with _ | ⟨k, d'⟩
    · rw [hf] at h; simp at h
    · rw [hf] at h
      simp only [Option.map_some', Except.ok.injEq, Option.some.injEq] at h
      have hk : (k == id) = true := by
        have := List.find?_some hf
        simpa using this
      have hk' : k = id := by simpa using hk
      subst hk'; rw [h] at hf; exact hf
  · simp only [Bool.not_eq_true] at hv
    rw [hv] at h
    simp at h

theorem find?_map_replace (l : List (String × FacultyDoc)) (id : String)
    (nd : FacultyDoc) (h : (l.find? (fun p => p.1 == id)).isSome) :
    (l.map (fun p => if p.1 == id then (p.1, nd) else p)).find?
      (fun p => p.1 == id) = some (id, nd) := by
  induction l with
  | nil => simp at h
  | cons hd tl ih =>
    cases hp : (hd.1 == id) with
    | true =>
      have hid : hd.1 = id := by simpa using hp
      subst hid
      have hhd : (if hd.1 == hd.1 then (hd.1, nd) else hd) = (hd.1, nd) := by
        simp
      rw [List.map_cons, hhd, List.find?_cons]
      simp
    | false =>
      have h' : (tl.find? (fun p => p.1 == id)).isSome := by
        rw [List.find?_cons] at h
        simpa only [hp] using h
      have hhd : (if hd.1 == id then (hd.1, nd) else hd) = hd := by
        simp [hp]
      rw [List.map_cons, hhd, List.find?_cons]
      simpa only [hp] using ih h'

theorem find?_filter_not (l : List (String × FacultyDoc)) (id : String) :
    (l.filter (fun p => !(p.1 == id))).find? (fun p => p.1 == id) = none := by
  rw [List.find?_eq_none]
  intro x hx
  have := (List.mem_filter.mp hx).2
  simp only [Bool.not_eq_true'] at this
  simp [this]

-- ------------------ Sample data for witnesses ------------------

/-- A well-formed (24-hex-char) document id. -/
def sId : String := "0123456789abcdef01234567"

/-- A fresh well-formed document id not used in `sDb`. -/
def sId2 : String := "aaaaaaaaaaaaaaaaaaaaaaaa"

/-- A fully populated faculty document, photo on disk in `sDb`. -/
def sDoc : FacultyDoc :=
  ⟨some "A", some "Prof", some "CS", some "/faculty_uploadss/1.png",
   some "p", some "r", some "aj", some "w", some "ch", some "aw"⟩

/-- A sample server state: one user, one faculty record, its photo on disk. -/
def sDb : DB :=
  ⟨[⟨"bob", bcryptHash 7 "pw"⟩], [(sId, sDoc)],
   [diskPath "/faculty_uploadss/1.png"]⟩

/-- A sample update/create body with some fields supplied and some omitted. -/
def sBody : FacultyBody :=
  ⟨some "B", none, some "EE", none, none, none, none, none, none⟩

/-- A sample uploaded file. -/
def sFile : UploadedFile := ⟨"photo.png"⟩

-- ------------------ C4 / C5 / C8: auth ------------------

/-- C4: registering a username not yet present succeeds with 201 and stores
exactly one new user whose password field is the bcrypt hash of the supplied
password; registering the same username a second time (any password, any
salt) fails with 400 "Username already exists" and leaves the store
unchanged. -/
theorem register_then_duplicate_conflict (db : DB) (u p1 p2 : String)
    (s1 s2 : Nat) (h : db.users.find? (fun x => x.username == u) = none) :
    (register db u p1 s1).1 = ⟨201, "User registered successfully", none⟩ ∧
    (register db u p1 s1).2.users = db.users ++ [⟨u, bcryptHash s1 p1⟩] ∧
    (register (register db u p1 s1).2 u p2 s2).1 =
      ⟨400, "Username already exists", none⟩ ∧
    (register (register db u p1 s1).2 u p2 s2).2 = (register db u p1 s1).2 := by
  unfold register
  rw [h]
  simp [List.find?_append, h, List.find?_cons]

/-- Witness for C4 at concrete inputs. -/
theorem register_then_duplicate_conflict_witness :
    (register sDb "alice" "pw1" 1).1 =
      ⟨201, "User registered successfully", none⟩ ∧
    (register sDb "alice" "pw1" 1).2.users =
      sDb.users ++ [⟨"alice", bcryptHash 1 "pw1"⟩] ∧
    (register (register sDb "alice" "pw1" 1).2 "alice" "pw2" 2).1 =
      ⟨400, "Username already exists", none⟩ ∧
    (register (register sDb "alice" "pw1" 1).2 "alice" "pw2" 2).2 =
      (register sDb "alice" "pw1" 1).2 :=
  register_then_duplicate_conflict sDb "alice" "pw1" "pw2" 1 2 rfl

/-- C5: a login with an unknown username and a login with a known username
but non-verifying password produce identical responses: 400 with
"Invalid username or password" and no username echoed, so the response does
not reveal whether the username exists. -/
theorem login_no_user_enumeration (db : DB) (u1 p1 u2 p2 : String)
    (usr : UserRec)
    (h1 : db.users.find? (fun x => x.username == u1) = none)
    (h2 : db.users.find? (fun x => x.username == u2) = some usr)
    (h3 : bcryptCompare p2 usr.password = false) :
    login db u1 p1 = login db u2 p2 ∧
    login db u1 p1 = ⟨400, "Invalid username or password", none⟩ := by
  unfold login
  rw [h1, h2]
  simp [h3]

/-- Witness for C5 at concrete inputs. -/
theorem login_no_user_enumeration_witness :
    login sDb "nobody" "x" = login sDb "bob" "wrong" ∧
    login sDb "nobody" "x" = ⟨400, "Invalid username or password", none⟩ :=
  login_no_user_enumeration sDb "nobody" "x" "bob" "wrong"
    ⟨"bob", bcryptHash 7 "pw"⟩ rfl rfl rfl

/-- C8: after a successful register(u, p) (status 201), login(u, p) succeeds
with 200, message "Welcome u" and the username echoed back; the response
carries nothing else (no token or session exists in the model, and `login`
does not change the state). -/
theorem register_login_roundtrip (db : DB) (u p : String) (s : Nat)
    (h : (register db u p s).1.status = 201) :
    login (register db u p s).2 u p = ⟨200, "Welcome " ++ u, some u⟩ := by
  have hn : db.users.find? (fun x => x.username == u) = none := by
    by_contra hc
    rcases Option.ne_none_iff_exists'.mp hc with ⟨x, hx⟩
    unfold register at h
    rw [hx] at h
    simp at h
  unfold register login
  rw [hn]
  simp [List.find?_append, hn, List.find?_cons, bcryptCompare, bcryptHash]

/-- Witness for C8 at concrete inputs. -/
theorem register_login_roundtrip_witness :
    login (register sDb "alice" "pw" 3).2 "alice" "pw" =
      ⟨200, "Welcome " ++ "alice", some "alice"⟩ :=
  register_login_roundtrip sDb "alice" "pw" 3 rfl

-- ------------------ C10: create with empty body ------------------

/-- C10: create with every text field absent and no photo file performs no
presence validation: it succeeds with success = true, stores one new record
whose photo is the empty string and whose other fields are all unset, and
touches neither the users collection nor the filesystem. -/
theorem create_accepts_empty_body (db : DB) (now : Nat) (newId : String) :
    (createFaculty db FacultyBody.empty none now newId).1 =
      ⟨200, true, "Faculty saved successfully!"⟩ ∧
    (createFaculty db FacultyBody.empty none now newId).2.faculty =
      db.faculty ++
        [(newId,
          ⟨none, none, none, some "", none, none, none, none, none, none⟩)] ∧
    (createFaculty db FacultyBody.empty none now newId).2.users = db.users ∧
    (createFaculty db FacultyBody.empty none now newId).2.fsFiles =
      db.fsFiles :=
  ⟨rfl, rfl, rfl, rfl⟩

-- ------------------ C6: list projection vs full get ------------------

/-- C6: every record returned by list is exactly the four-field projection
{name, designation, department, photo} of a stored document — so it carries
no information about the six withheld text fields: two documents agreeing on
the four projected fields are listed identically — while getById on an
existing record returns the full document with all fields. -/
theorem list_projected_get_full (db : DB) :
    listFaculty db = db.faculty.map (fun p => projectListed p.2) ∧
    (∀ d1 d2 : FacultyDoc, d1.name = d2.name → d1.designation = d2.designation →
      d1.department = d2.department → d1.photo = d2.photo →
      projectListed d1 = projectListed d2) ∧
    (∀ id d, findById db id = .ok (some d) →
      getFaculty db id = ⟨200, none, some d⟩) := by
  refine ⟨rfl, ?_, ?_⟩
  · intro d1 d2 h1 h2 h3 h4
    simp [projectListed, h1, h2, h3, h4]
  · intro id d h
    unfold getFaculty
    rw [h]

/-- Witness for C6 at concrete inputs: get on the sample record returns the
full document. -/
theorem list_projected_get_full_witness :
    getFaculty sDb sId = ⟨200, none, some sDoc⟩ :=
  (list_projected_get_full sDb).2.2 sId sDoc rfl

-- ------------------ C9: malformed ids give 500, never 404 ------------------

/-- C9: on an id that does not cast to an ObjectId, getById, update and
delete all answer 500 with the generic per-route error message (the thrown
CastError takes the catch path), never 404; and a 404 from any of the three
routes implies the id was well-formed and matched no stored record. -/
theorem malformed_id_500_not_404 (db : DB) (id : String) :
    (isValidObjectId id = false →
      getFaculty db id = ⟨500, some "Error fetching faculty", none⟩ ∧
      (∀ body file now, updateFaculty db id body file now =
        (⟨500, false, "Error updating faculty", none⟩, multerWrite file now db)) ∧
      deleteFaculty db id = (⟨500, false, "Error deleting faculty"⟩, db)) ∧
    ((getFaculty db id).status = 404 →
      isValidObjectId id = true ∧
        db.faculty.find? (fun p => p.1 == id) = none) ∧
    (∀ body file now, (updateFaculty db id body file now).1.status = 404 →
      isValidObjectId id = true ∧
        db.faculty.find? (fun p => p.1 == id) = none) ∧
    ((deleteFaculty db id).1.status = 404 →
      isValidObjectId id = true ∧
        db.faculty.find? (fun p => p.1 == id) = none) := by
  constructor
  · intro hv
    refine ⟨?_, ?_, ?_⟩
    · simp [getFaculty, findById, hv]
    · intro body file now
      simp [updateFaculty, findById_multerWrite, findById, hv]
    · simp [deleteFaculty, findById, hv]
  · by_cases hv : isValidObjectId id = true
    · rcases hf : db.faculty.find? (fun p => p.1 == id) with _ | p
      · exact ⟨fun _ => ⟨hv, hf⟩, fun _ _ _ _ => ⟨hv, hf⟩, fun _ => ⟨hv, hf⟩⟩
      · refine ⟨?_, ?_, ?_⟩
        · intro h404
          exact absurd h404 (by simp [getFaculty, findById, hv, hf])
        · intro body file now h404
          have hfb : findById (multerWrite file now db) id = .ok (some p.2) := by
            rw [findById_multerWrite]
            simp [findById, hv, hf]
          exact absurd h404 (by simp [updateFaculty, hfb])
        · intro h404
          exact absurd h404 (by simp [deleteFaculty, findById, hv, hf])
    · have hv' : isValidObjectId id = false := by simpa using hv
      refine ⟨?_, ?_, ?_⟩
      · intro h404
        exact absurd h404 (by simp [getFaculty, findById, hv'])
      · intro body file now h404
        exact absurd h404
          (by simp [updateFaculty, findById_multerWrite, findById, hv'])
      · intro h404
        exact absurd h404 (by simp [deleteFaculty, findById, hv'])

/-- Witness for C9 at a concrete malformed id. -/
theorem malformed_id_500_not_404_witness :
    getFaculty sDb "xyz" = ⟨500, some "Error fetching faculty", none⟩ ∧
    deleteFaculty sDb "xyz" = (⟨500, false, "Error deleting faculty"⟩, sDb) :=
  ⟨((malformed_id_500_not_404 sDb "xyz").1 rfl).1,
   ((malformed_id_500_not_404 sDb "xyz").1 rfl).2.2⟩

-- ------------------ Update path: success-case characterisation ------------------

theorem not_mem_fsDeleteIfExists (p : String) (fs : List String) :
    p ∉ fsDeleteIfExists p fs := by
  unfold fsDeleteIfExists
  by_cases hc : fs.contains p = true
  · simp only [hc, if_true]
    intro hmem
    have := (List.mem_filter.mp hmem).2
    simp at this
  · simp only [hc, if_false]
    intro hmem
    exact hc (List.elem_iff.mpr hmem)

theorem updateFaculty_found (db : DB) (id : String) (body : FacultyBody)
    (file : Option UploadedFile) (now : Nat) (old : FacultyDoc)
    (h : findById db id = .ok (some old)) :
    (updateFaculty db id body file now).1 =
      ⟨200, true, "Faculty updated successfully!",
       some (updatedDoc old body file now)⟩ ∧
    (updateFaculty db id body file now).2.users = db.users ∧
    (updateFaculty db id body file now).2.faculty =
      db.faculty.map (fun p =>
        if p.1 == id then (p.1, updatedDoc old body file now) else p) ∧
    (updateFaculty db id body file now).2.fsFiles =
      (match file with
       | some f =>
         if strTruthy old.photo then
           fsDeleteIfExists (diskPath (old.photo.getD ""))
             (fsInsert (diskPath (uploadRelPath now f)) db.fsFiles)
         else fsInsert (diskPath (uploadRelPath now f)) db.fsFiles
       | none => db.fsFiles) := by
  cases file with
  | none =>
    simp only [updateFaculty, multerWrite]
    rw [h]
    simp
  | some f =>
    simp only [updateFaculty, multerWrite]
    have h' : findById
        { db with
          fsFiles := fsInsert (diskPath (uploadRelPath now f)) db.fsFiles }
        id = .ok (some old) := by
      rw [← h]; rfl
    rw [h']
    by_cases ht : strTruthy old.photo = true
    · simp only [ht, if_true]
      simp
    · simp only [Bool.not_eq_true] at ht
      simp only [ht, if_false]
      simp

-- ------------------ C1: update overwrites all text fields ------------------

/-- C1: on an existing record, update answers 200 and the stored record's
nine text fields are afterwards exactly the supplied body fields — whatever
they were before — so a field omitted from the request (none) is unset in
the stored record: no partial-update semantics. -/
theorem update_overwrites_all_text_fields (db : DB) (id : String)
    (body : FacultyBody) (file : Option UploadedFile) (now : Nat)
    (old : FacultyDoc) (h : findById db id = .ok (some old)) :
    (updateFaculty db id body file now).1.status = 200 ∧
    ∃ d, findById (updateFaculty db id body file now).2 id = .ok (some d) ∧
      d.name = body.name ∧ d.designation = body.designation ∧
      d.department = body.department ∧ d.publications = body.publications ∧
      d.researchProjects = body.researchProjects ∧
      d.articlesAndJournals = body.articlesAndJournals ∧
      d.workshops = body.workshops ∧
      d.coursesHandled = body.coursesHandled ∧
      d.awardsReceived = body.awardsReceived := by
  rcases findById_ok_some h with ⟨hv, hf⟩
  rcases updateFaculty_found db id body file now old h with ⟨h1, _, h3, _⟩
  refine ⟨by rw [h1], updatedDoc old body file now, ?_, rfl, rfl, rfl, rfl,
    rfl, rfl, rfl, rfl, rfl⟩
  have hfind : (updateFaculty db id body file now).2.faculty.find?
      (fun p => p.1 == id) = some (id, updatedDoc old body file now) := by
    rw [h3]
    exact find?_map_replace _ _ _ (by rw [hf]; rfl)
  unfold findById
  rw [hv]
  simp [hfind]

/-- Witness for C1 at concrete inputs. -/
theorem update_overwrites_all_text_fields_witness :
    (updateFaculty sDb sId sBody none 5).1.status = 200 ∧
    ∃ d, findById (updateFaculty sDb sId sBody none 5).2 sId = .ok (some d) ∧
      d.name = sBody.name ∧ d.designation = sBody.designation ∧
      d.department = sBody.department ∧ d.publications = sBody.publications ∧
      d.researchProjects = sBody.researchProjects ∧
      d.articlesAndJournals = sBody.articlesAndJournals ∧
      d.workshops = sBody.workshops ∧
      d.coursesHandled = sBody.coursesHandled ∧
      d.awardsReceived = sBody.awardsReceived :=
  update_overwrites_all_text_fields sDb sId sBody none 5 sDoc rfl

-- ------------------ C2: photo replacement on update ------------------

/-- C2: on an existing record, update with a new photo file stores the new
relative path in the record's photo field (and list/get reflect it: getById
returns the new path and the record's list projection carries it), and the
previously referenced photo file is no longer on disk afterwards; update
with no photo file leaves the photo field unchanged and the filesystem
untouched. -/
theorem update_photo_replacement (db : DB) (id : String) (body : FacultyBody)
    (f : UploadedFile) (now : Nat) (old : FacultyDoc)
    (h : findById db id = .ok (some old)) :
    (∃ d, findById (updateFaculty db id body (some f) now).2 id =
        .ok (some d) ∧
      d.photo = some (uploadRelPath now f) ∧
      projectListed d ∈ listFaculty (updateFaculty db id body (some f) now).2) ∧
    (strTruthy old.photo = true →
      diskPath (old.photo.getD "") ∉
        (updateFaculty db id body (some f) now).2.fsFiles) ∧
    (∃ d0, findById (updateFaculty db id body none now).2 id = .ok (some d0) ∧
      d0.photo = old.photo) ∧
    (updateFaculty db id body none now).2.fsFiles = db.fsFiles := by
  rcases findById_ok_some h with ⟨hv, hf⟩
  have hfindAfter : ∀ file, (updateFaculty db id body file now).2.faculty.find?
      (fun p => p.1 == id) = some (id, updatedDoc old body file now) := by
    intro file
    rcases updateFaculty_found db id body file now old h with ⟨_, _, h3, _⟩
    rw [h3]
    exact find?_map_replace _ _ _ (by rw [hf]; rfl)
  have hget : ∀ file, findById (updateFaculty db id body file now).2 id =
      .ok (some (updatedDoc old body file now)) := by
    intro file
    unfold findById
    rw [hv]
    simp [hfindAfter file]
  refine ⟨⟨updatedDoc old body (some f) now, hget (some f), rfl, ?_⟩,
    ?_, ⟨updatedDoc old body none now, hget none, rfl⟩, ?_⟩
  · exact List.mem_map_of_mem _
      (List.mem_of_find?_eq_some (hfindAfter (some f)))
  · intro ht
    rcases updateFaculty_found db id body (some f) now old h with ⟨_, _, _, h4⟩
    rw [h4]
    simp only [ht, if_true]
    exact not_mem_fsDeleteIfExists _ _
  · rcases updateFaculty_found db id body none now old h with ⟨_, _, _, h4⟩
    exact h4

/-- Witness for C2 at concrete inputs: the sample record's photo is truthy
and its file is on disk. -/
theorem update_photo_replacement_witness :
    (∃ d, findById (updateFaculty sDb sId sBody (some sFile) 5).2 sId =
        .ok (some d) ∧
      d.photo = some (uploadRelPath 5 sFile) ∧
      projectListed d ∈
        listFaculty (updateFaculty sDb sId sBody (some sFile) 5).2) ∧
    diskPath (sDoc.photo.getD "") ∉
      (updateFaculty sDb sId sBody (some sFile) 5).2.fsFiles ∧
    (∃ d0, findById (updateFaculty sDb sId sBody none 5).2 sId =
        .ok (some d0) ∧ d0.photo = sDoc.photo) ∧
    (updateFaculty sDb sId sBody none 5).2.fsFiles = sDb.fsFiles :=
  ⟨(update_photo_replacement sDb sId sBody sFile 5 sDoc rfl).1,
   (update_photo_replacement sDb sId sBody sFile 5 sDoc rfl).2.1 rfl,
   (update_photo_replacement sDb sId sBody sFile 5 sDoc rfl).2.2.1,
   (update_photo_replacement sDb sId sBody sFile 5 sDoc rfl).2.2.2⟩

-- ------------------ C3: delete semantics ------------------

/-- C3: on a well-formed id matching no record, delete answers 404 NotFound
and changes nothing; on an existing record it answers success, afterwards
getById on that id is 404 and the collection (hence list) retains exactly
the records with other ids, and a truthy photo's file is no longer on
disk. -/
theorem delete_semantics (db : DB) (id : String)
    (hid : isValidObjectId id = true) :
    (db.faculty.find? (fun p => p.1 == id) = none →
      deleteFaculty db id = (⟨404, false, "Faculty not found"⟩, db)) ∧
    (∀ old, findById db id = .ok (some old) →
      (deleteFaculty db id).1 = ⟨200, true, "Faculty deleted successfully"⟩ ∧
      getFaculty (deleteFaculty db id).2 id =
        ⟨404, some "Faculty not found", none⟩ ∧
      (deleteFaculty db id).2.faculty =
        db.faculty.filter (fun p => !(p.1 == id)) ∧
      (strTruthy old.photo = true →
        diskPath (old.photo.getD "") ∉ (deleteFaculty db id).2.fsFiles)) := by
  constructor
  · intro hf
    simp [deleteFaculty, findById, hid, hf]
  · intro old h
    have hfac : (deleteFaculty db id).2.faculty =
        db.faculty.filter (fun p => !(p.1 == id)) := by
      simp only [deleteFaculty]
      rw [h]
      by_cases ht : strTruthy old.photo = true <;> simp [ht]
    refine ⟨?_, ?_, hfac, ?_⟩
    · simp only [deleteFaculty]
      rw [h]
    · unfold getFaculty findById
      rw [hid]
      simp only [if_true]
      rw [hfac, find?_filter_not]
      rfl
    · intro ht
      simp only [deleteFaculty]
      rw [h]
      simp only [ht, if_true]
      exact not_mem_fsDeleteIfExists _ _

/-- Witness for C3 at concrete inputs: 404 on a fresh well-formed id, full
deletion (record, list, photo file) on the sample record. -/
theorem delete_semantics_witness :
    deleteFaculty sDb sId2 = (⟨404, false, "Faculty not found"⟩, sDb) ∧
    (deleteFaculty sDb sId).1 =
      ⟨200, true, "Faculty deleted successfully"⟩ ∧
    getFaculty (deleteFaculty sDb sId).2 sId =
      ⟨404, some "Faculty not found", none⟩ ∧
    diskPath (sDoc.photo.getD "") ∉ (deleteFaculty sDb sId).2.fsFiles :=
  ⟨(delete_semantics sDb sId2 rfl).1 rfl,
   ((delete_semantics sDb sId rfl).2 sDoc rfl).1,
   ((delete_semantics sDb sId rfl).2 sDoc rfl).2.1,
   ((delete_semantics sDb sId rfl).2 sDoc rfl).2.2.2 rfl⟩

-- ------------------ C7: photo path on create ------------------

theorem digitChar_isDigit {d : Nat} (h : d < 10) :
    (Nat.digitChar d).isDigit = true := by
  interval_cases d <;> decide

theorem toDigitsCore_all_digits (f : Nat) :
    ∀ (n : Nat) (acc : List Char), (∀ c ∈ acc, c.isDigit = true) →
      ∀ c ∈ Nat.toDigitsCore 10 f n acc, c.isDigit = true := by
  induction f with
  | zero =>
    intro n acc hacc c hc
    exact hacc c (by simpa [Nat.toDigitsCore] using hc)
  | succ f ih =>
    intro n acc hacc c hc
    have hd : (Nat.digitChar (n % 10)).isDigit = true :=
      digitChar_isDigit (Nat.mod_lt _ (by norm_num))
    have hacc' : ∀ c ∈ Nat.digitChar (n % 10) :: acc, c.isDigit = true := by
      intro c hc
      rcases List.mem_cons.mp hc with rfl | hc
      · exact hd
      · exact hacc c hc
    simp only [Nat.toDigitsCore] at hc
    by_cases hnb : n / 10 = 0
    · rw [if_pos hnb] at hc
      exact hacc' c hc
    · rw [if_neg hnb] at hc
      exact ih (n / 10) _ hacc' c hc

theorem toString_nat_all_digits (n : Nat) :
    ∀ c ∈ (toString n).toList, c.isDigit = true := by
  intro c hc
  have hrepr : (toString n).toList = Nat.toDigitsCore 10 (n + 1) n [] := by
    show (Nat.repr n).toList = _
    rw [Nat.repr, Nat.toDigits, List.toList_asString]
  rw [hrepr] at hc
  exact toDigitsCore_all_digits (n + 1) n [] (by simp) c hc

/-- C7: create with a photo file succeeds and stores photo =
"/faculty_uploadss/" ++ decimal digits of the current epoch milliseconds ++
the original file's extension, and getById/list reflect it; create with no
file stores photo = "". -/
theorem create_photo_path (db : DB) (body : FacultyBody) (f : UploadedFile)
    (now : Nat) (newId : String) (hvalid : isValidObjectId newId = true)
    (hfresh : db.faculty.find? (fun p => p.1 == newId) = none) :
    (createFaculty db body (some f) now newId).1 =
      ⟨200, true, "Faculty saved successfully!"⟩ ∧
    (∃ d, findById (createFaculty db body (some f) now newId).2 newId =
        .ok (some d) ∧
      d.photo = some ("/faculty_uploadss/" ++
        (toString now ++ extname f.originalname)) ∧
      (∀ c ∈ (toString now).toList, c.isDigit = true) ∧
      projectListed d ∈
        listFaculty (createFaculty db body (some f) now newId).2) ∧
    (∃ d0, findById (createFaculty db body none now newId).2 newId =
        .ok (some d0) ∧ d0.photo = some "") := by
  have hfac : ∀ file : Option UploadedFile,
      (createFaculty db body file now newId).2.faculty =
        db.faculty ++ [(newId, createdDoc body file now)] := by
    intro file
    cases file <;> rfl
  have hfind : ∀ file : Option UploadedFile,
      (createFaculty db body file now newId).2.faculty.find?
        (fun p => p.1 == newId) = some (newId, createdDoc body file now) := by
    intro file
    rw [hfac file, List.find?_append, hfresh]
    simp [List.find?_cons]
  have hget : ∀ file : Option UploadedFile,
      findById (createFaculty db body file now newId).2 newId =
        .ok (some (createdDoc body file now)) := by
    intro file
    unfold findById
    rw [hvalid]
    simp [hfind file]
  refine ⟨rfl,
    ⟨createdDoc body (some f) now, hget (some f), rfl,
      toString_nat_all_digits now,
      List.mem_map_of_mem _ (List.mem_of_find?_eq_some (hfind (some f)))⟩,
    ⟨createdDoc body none now, hget none, rfl⟩⟩

/-- Witness for C7 at concrete inputs: create on the sample state with the
sample file "photo.png" at time 5 and fresh id `sId2`. -/
theorem create_photo_path_witness :
    (createFaculty sDb sBody (some sFile) 5 sId2).1 =
      ⟨200, true, "Faculty saved successfully!"⟩ ∧
    (∃ d, findById (createFaculty sDb sBody (some sFile) 5 sId2).2 sId2 =
        .ok (some d) ∧
      d.photo = some ("/faculty_uploadss/" ++
        (toString 5 ++ extname sFile.originalname)) ∧
      (∀ c ∈ (toString 5).toList, c.isDigit = true) ∧
      projectListed d ∈
        listFaculty (createFaculty sDb sBody (some sFile) 5 sId2).2) ∧
    (∃ d0, findById (createFaculty sDb sBody none 5 sId2).2 sId2 =
        .ok (some d0) ∧ d0.photo = some "") :=
  create_photo_path sDb sBody sFile 5 sId2 rfl rfl

end FacultyApp
